import Mathlib

/-!
Shallow embedding of the token-based authentication subsystem of the
user-identity microservice (`microservice/app/{config,auth,database,routes}.py`).

Modelling conventions:
* Machine time is `Int` seconds since the Unix epoch (UTC); Python `datetime`
  values entering a JWT payload are serialized by PyJWT to integer timestamps.
* A wire-level JWT string is interpreted through an ambient decoding function
  `parse : String → Token`; `Token` is the symbolic result of PyJWT's
  structural parse: either `malformed msg` (structurally invalid, `msg` is the
  library's exception text, e.g. "Not enough segments") or `signed payload s`
  (a well-formed token whose HMAC-SHA256 signature was produced with secret
  `s`).  Signature verification succeeds exactly when `s` equals the verifying
  secret.
* Fallible Python code is embedded with `Except`/sum-like result types; an
  uncaught exception surfaces as a distinguished `serverError`-style result
  (Flask maps it to a 500 response).
-/

namespace KongJwt

/-- JWT claim set as built by `create_jwt_token` / returned by `jwt.decode`.
Each claim is optional because an arbitrary presented token may omit it. -/
structure JwtPayload where
  sub : Option String
  username : Option String
  iat : Option Int
  exp : Option Int
  iss : Option String
  deriving DecidableEq

/-- Symbolic wire token: either structurally malformed (carrying the PyJWT
exception text its parse produces) or a well-formed token signed with a given
secret. -/
inductive Token where
  | malformed (msg : String)
  | signed (payload : JwtPayload) (secret : String)
  deriving DecidableEq

/-- Model of `jwt.encode(payload, secret, algorithm='HS256')`: serializing and
signing a payload yields a well-formed token carrying that payload and secret. -/
def jwt_encode (payload : JwtPayload) (secret : String) : Token :=
  Token.signed payload secret

/-- Outcome of `jwt.decode`: success, `jwt.ExpiredSignatureError`, or another
`jwt.InvalidTokenError` carrying its `str(e)` message. -/
inductive DecodeOutcome where
  | ok (payload : JwtPayload)
  | expiredSignatureError
  | invalidTokenError (msg : String)
  deriving DecidableEq

/-- `str(e)` of PyJWT's `MissingRequiredClaimError` for claim `c`. -/
def missingClaimMsg (c : String) : String :=
  "Token is missing the \"" ++ c ++ "\" claim"

/-- Model of `decode_jwt_token` (auth.py 80-100): `jwt.decode(token, secret,
algorithms=['HS256'], options={'require': ['exp', 'iat', 'sub']})`.
PyJWT order: structural parse, signature verification ("Signature verification
failed" on mismatch), presence of the required claims exp, iat, sub, then the
expiration check with zero leeway: expired iff `exp ≤ now`. -/
def decode_jwt_token (secret : String) (now : Int) (t : Token) : DecodeOutcome :=
  match t with
  | Token.malformed msg => DecodeOutcome.invalidTokenError msg
  | Token.signed p s =>
    if s = secret then
      match p.exp with
      | none => DecodeOutcome.invalidTokenError (missingClaimMsg "exp")
      | some e =>
        match p.iat with
        | none => DecodeOutcome.invalidTokenError (missingClaimMsg "iat")
        | some _ =>
          match p.sub with
          | none => DecodeOutcome.invalidTokenError (missingClaimMsg "sub")
          | some _ =>
            if e ≤ now then DecodeOutcome.expiredSignatureError
            else DecodeOutcome.ok p
    else DecodeOutcome.invalidTokenError "Signature verification failed"

/-- Result of `verify_jwt_token`: models the Python pair
`(is_valid, payload_or_error)` — `valid p` is `(True, p)`, `invalid e` is
`(False, e)`. -/
inductive VerifyOutcome where
  | valid (payload : JwtPayload)
  | invalid (error : String)
  deriving DecidableEq

/-- Model of `verify_jwt_token` (auth.py 103-119): wraps `decode_jwt_token`,
mapping `ExpiredSignatureError` to `'Token has expired'` and any other
`InvalidTokenError` e to `f'Invalid token: {str(e)}'`. -/
def verify_jwt_token (secret : String) (now : Int) (t : Token) : VerifyOutcome :=
  match decode_jwt_token secret now t with
  | DecodeOutcome.ok p => VerifyOutcome.valid p
  | DecodeOutcome.expiredSignatureError => VerifyOutcome.invalid "Token has expired"
  | DecodeOutcome.invalidTokenError e => VerifyOutcome.invalid ("Invalid token: " ++ e)

/-- Model of `Config.JWT_SECRET_KEY` (config.py 30):
`os.environ.get('JWT_SECRET_KEY', 'dev-secret-change-in-production')` — the
default is returned only when the environment variable is absent; an empty
value set in the environment is returned as-is. -/
def Config.JWT_SECRET_KEY (env : Option String) : String :=
  env.getD "dev-secret-change-in-production"

/-- Model of `Config.get_jwt_expiration` (config.py 43-46):
`timedelta(hours=JWT_EXPIRATION_HOURS)`, in seconds.  `JWT_EXPIRATION_HOURS`
is `int(os.environ.get('JWT_EXPIRATION_HOURS', '24'))`, default 24. -/
def Config.get_jwt_expiration (hours : Int) : Int :=
  hours * 3600

/-- Model of `create_jwt_token` (auth.py 42-77): captures `now`, computes
`expiration = now + Config.get_jwt_expiration()`, builds the claim set
`{sub: str(user_id), username, iat: now, exp: expiration, iss: 'user-service'}`
and signs it with the configured secret. -/
def create_jwt_token (secret : String) (hours : Int) (now : Int)
    (user_id : Int) (username : String) : Token :=
  let expiration := now + Config.get_jwt_expiration hours
  let payload : JwtPayload :=
    { sub := some (toString user_id)
      username := some username
      iat := some now
      exp := some expiration
      iss := some "user-service" }
  jwt_encode payload secret

/-- Helper for `pySplit`: walk the characters, `acc` holds the current word
reversed. -/
def pySplitAux (cs : List Char) (acc : List Char) : List (List Char) :=
  match cs with
  | [] => if acc = [] then [] else [acc.reverse]
  | c :: rest =>
    if c.isWhitespace then
      if acc = [] then pySplitAux rest [] else acc.reverse :: pySplitAux rest []
    else pySplitAux rest (c :: acc)

/-- Python `str.split()` with no separator: split on whitespace runs,
discarding empty pieces.  (Whitespace here is space/tab/CR/LF; Python also
splits on a few rarer whitespace code points, irrelevant to the claims.) -/
def pySplit (s : String) : List String :=
  (pySplitAux s.data []).map (fun l => String.mk l)

/-- Python `str.lower()` (ASCII case folding suffices for the `'bearer'`
comparison in the code). -/
def pyLower (s : String) : String :=
  String.mk (s.data.map Char.toLower)

/-- Python `str.startswith(pre)`. -/
def pyStartsWith (s pre : String) : Bool :=
  s.data.take pre.data.length = pre.data

/-- Python slicing `s[n:]`. -/
def pyDrop (s : String) (n : Nat) : String :=
  String.mk (s.data.drop n)

/-- Outcome of the `jwt_required` guard: a 401 JSON error, or a pass-through with
the verified claim set attached as `request.current_user`. -/
inductive GateResult where
  | reject (error : String)
  | grant (current_user : JwtPayload)
  deriving DecidableEq

/-- Model of the `jwt_required` decorator body (auth.py 143-169).  The
Authorization header is read with default `''` (so an absent header and an
empty one coincide); `parse` is the ambient interpretation of the token
substring as a symbolic `Token`. -/
def jwt_required_check (parse : String → Token) (secret : String) (now : Int)
    (header : Option String) : GateResult :=
  let auth_header := header.getD ""
  if auth_header = "" then GateResult.reject "Authorization header required"
  else
    match pySplit auth_header with
    | [scheme, tok] =>
      if pyLower scheme = "bearer" then
        match verify_jwt_token secret now (parse tok) with
        | VerifyOutcome.valid p => GateResult.grant p
        | VerifyOutcome.invalid e => GateResult.reject e
      else GateResult.reject "Invalid authorization format. Use: Bearer <token>"
    | _ => GateResult.reject "Invalid authorization format. Use: Bearer <token>"

/-- Whether a string parses as a bcrypt salt/hash prefix:
`$2` + minor version in {a,b,x,y} + `$` + two-digit cost in 4..31 + `$` +
at least the 22 base64 salt characters.  Models the salt parse inside
pyca/bcrypt's `hashpw`, which raises `ValueError('Invalid salt')` when this
fails. -/
def isBcryptSalt (s : String) : Bool :=
  match s.data with
  | '$' :: '2' :: m :: '$' :: d1 :: d2 :: '$' :: rest =>
    (m = 'a' || m = 'b' || m = 'x' || m = 'y') &&
    d1.isDigit && d2.isDigit &&
    (decide (4 ≤ (d1.toNat - 48) * 10 + (d2.toNat - 48)) &&
     decide ((d1.toNat - 48) * 10 + (d2.toNat - 48) ≤ 31)) &&
    decide (22 ≤ rest.length)
  | _ => false

/-- Model of pyca/bcrypt `checkpw(password, hashed)`: recompute
`hashpw(password, hashed)` (the salt is the prefix of `hashed`) and compare
with `hashed` in constant time.  `hashFn password hashed` abstracts the bcrypt
KDF output for `password` under the salt embedded in `hashed`.  When `hashed`
does not parse as a bcrypt salt, `hashpw` raises `ValueError('Invalid salt')`,
modelled as `Except.error`. -/
def checkpw (hashFn : String → String → String) (password hashed : String) :
    Except String Bool :=
  if isBcryptSalt hashed then Except.ok (hashFn password hashed = hashed)
  else Except.error "Invalid salt"

/-- Model of `verify_password` (database.py 50-61): directly delegates to
`bcrypt.checkpw` with no exception handling, so a `ValueError` from a
malformed hash propagates to the caller. -/
def verify_password (hashFn : String → String → String) (password hashed : String) :
    Except String Bool :=
  checkpw hashFn password hashed

/-- Row of the `users` table (database.py 102-110), as returned by
`dict(row)` from `SELECT * FROM users`. -/
structure User where
  id : Int
  username : String
  email : String
  password_hash : String
  created_at : String
  deriving DecidableEq

/-- Model of `get_user_by_username` (database.py 132-148):
`SELECT * FROM users WHERE username = ?` — exact string equality, first
matching row (the `username` column is UNIQUE), `None` when absent. -/
def get_user_by_username (db : List User) (username : String) : Option User :=
  db.find? (fun u => u.username = username)

/-- Python `dict.get(k)` on a JSON object modelled as an association list. -/
def pyGet (kvs : List (String × String)) (k : String) : Option String :=
  (kvs.find? (fun kv => kv.1 = k)).map (fun kv => kv.2)

/-- Response of the `/login` route: 400, 401, 200 (with token and the echoed
non-secret user fields), or an uncaught exception (Flask 500). -/
inductive LoginResult where
  | badRequest (error : String)
  | unauthorized (error : String)
  | success (token : Token) (id : Int) (username : String) (email : String)
  | serverError
  deriving DecidableEq

/-- Model of the `/login` route (routes.py 124-184).  `data` is
`request.get_json()`: `none` for a missing/unparsable body; a JSON object is
an association list of string fields, and the empty object is falsy in Python
(`if not data`).  A field value that is absent or empty is falsy
(`if not username or not password`). -/
def login (hashFn : String → String → String) (db : List User) (secret : String)
    (hours : Int) (now : Int) (data : Option (List (String × String))) : LoginResult :=
  match data with
  | none => LoginResult.badRequest "Request body required"
  | some kvs =>
    if kvs = [] then LoginResult.badRequest "Request body required"
    else
      let username := (pyGet kvs "username").getD ""
      let password := (pyGet kvs "password").getD ""
      if username = "" ∨ password = "" then
        LoginResult.badRequest "Username and password required"
      else
        match get_user_by_username db username with
        | none => LoginResult.unauthorized "Invalid credentials"
        | some user =>
          match verify_password hashFn password user.password_hash with
          | Except.error _ => LoginResult.serverError
          | Except.ok false => LoginResult.unauthorized "Invalid credentials"
          | Except.ok true =>
            LoginResult.success (create_jwt_token secret hours now user.id user.username)
              user.id user.username user.email

/-- Response of the `/verify` route: 400 when no token was supplied, 200 with
the echoed payload fields, 401 with the verifier's error, or an uncaught
`KeyError` (Flask 500) when a valid payload lacks an echoed field. -/
inductive VerifyRouteResult where
  | badRequest (error : String)
  | ok (user_id : String) (username : String) (issued_at : Int) (expires_at : Int)
  | unauthorized (error : String)
  | serverError
  deriving DecidableEq

/-- The tail of the `/verify` route after a token string has been selected
(routes.py 101-117): verify it and build the response from
`result['sub'] / ['username'] / ['iat'] / ['exp']`. -/
def verify_token_respond (secret : String) (now : Int) (tok : Token) : VerifyRouteResult :=
  match verify_jwt_token secret now tok with
  | VerifyOutcome.valid p =>
    match p.sub, p.username, p.iat, p.exp with
    | some s, some u, some i, some e => VerifyRouteResult.ok s u i e
    | _, _, _, _ => VerifyRouteResult.serverError
  | VerifyOutcome.invalid e => VerifyRouteResult.unauthorized e

/-- Token taken from the Authorization header by the `/verify` route
(routes.py 91-93): only the exact, case-sensitive prefix `"Bearer "` is
stripped; otherwise no token is extracted. -/
def headerToken (header : Option String) : String :=
  let auth_header := header.getD ""
  if pyStartsWith auth_header "Bearer " then pyDrop auth_header 7 else ""

/-- Model of the `/verify` route (routes.py 67-117).  The query parameter
`token` is used when present and non-empty (`if not token`); only then is the
Authorization header consulted; with no token from either source the route
answers 400 without calling the verifier. -/
def verify_token_route (parse : String → Token) (secret : String) (now : Int)
    (queryToken : Option String) (header : Option String) : VerifyRouteResult :=
  let token :=
    if queryToken.getD "" = "" then headerToken header else queryToken.getD ""
  if token = "" then
    VerifyRouteResult.badRequest "No token provided. Use ?token=<jwt> or Authorization header"
  else verify_token_respond secret now (parse token)

/-! ## Helper lemmas -/

/-- If `a` and `s` differ at an index inside `a`, then `a ++ m ≠ s` whatever
`m` is. -/
theorem string_append_ne (a m s : String) (i : Nat) (hi : i < a.data.length)
    (hne : a.data[i]? ≠ s.data[i]?) : a ++ m ≠ s := by
  intro he
  apply hne
  have hd : a.data ++ m.data = s.data := congrArg String.data he
  rw [← hd]
  exact (List.getElem?_append_left hi).symm

/-- Every `invalid` outcome of `verify_jwt_token` carries either the expiry
message or an `"Invalid token: "`-prefixed message. -/
theorem verify_error_shape (secret : String) (now : Int) (t : Token) (e : String)
    (h : verify_jwt_token secret now t = VerifyOutcome.invalid e) :
    e = "Token has expired" ∨ ∃ m, e = "Invalid token: " ++ m := by
  unfold verify_jwt_token at h
  cases hd : decode_jwt_token secret now t <;> rw [hd] at h <;> simp_all
  exact Or.inr ⟨_, h.symm⟩

/-! ## Claim theorems -/

/-- C1: for every stored record and every password matching its stored hash,
`login` returns a token that, verified with the same secret at any time
strictly before the token's `exp` (`now + lifetime`), yields a valid claim
set whose `sub` is the string form of the record's id and whose `username`
is the record's username.  (The username and password must be non-empty for
the request to reach the credential check at all.) -/
theorem login_token_roundtrip (hashFn : String → String → String) (db : List User)
    (secret : String) (hours now t : Int) (u p : String) (user : User)
    (hu : u ≠ "") (hp : p ≠ "")
    (hfind : get_user_by_username db u = some user)
    (hpw : verify_password hashFn p user.password_hash = Except.ok true)
    (ht : t < now + hours * 3600) :
    login hashFn db secret hours now (some [("username", u), ("password", p)])
      = LoginResult.success
          (Token.signed
            { sub := some (toString user.id), username := some user.username,
              iat := some now, exp := some (now + hours * 3600),
              iss := some "user-service" } secret)
          user.id user.username user.email
  ∧ verify_jwt_token secret t
      (Token.signed
        { sub := some (toString user.id), username := some user.username,
          iat := some now, exp := some (now + hours * 3600),
          iss := some "user-service" } secret)
      = VerifyOutcome.valid
          { sub := some (toString user.id), username := some user.username,
            iat := some now, exp := some (now + hours * 3600),
            iss := some "user-service" } := by
  have hget_u : pyGet [("username", u), ("password", p)] "username" = some u := by
    simp [pyGet, List.find?]
  have hget_p : pyGet [("username", u), ("password", p)] "password" = some p := by
    simp [pyGet, List.find?]
  constructor
  · simp [login, hget_u, hget_p, hu, hp, hfind, hpw, create_jwt_token, jwt_encode,
      Config.get_jwt_expiration]
  · simp [verify_jwt_token, decode_jwt_token]
    rw [if_neg (by omega)]

/-- Witness for C1: a concrete store, matching password, verification one
second before expiry. -/
theorem login_token_roundtrip_witness :
    login (fun _ h => h)
        [⟨1, "admin", "admin@example.com", "$2b$12$abcdefghijklmnopqrstuv",
          "2024-01-01"⟩] "k" 24 0
        (some [("username", "admin"), ("password", "admin123")])
      = LoginResult.success
          (Token.signed
            { sub := some (toString (1 : Int)), username := some "admin",
              iat := some 0, exp := some (0 + 24 * 3600),
              iss := some "user-service" } "k")
          1 "admin" "admin@example.com"
  ∧ verify_jwt_token "k" 86399
      (Token.signed
        { sub := some (toString (1 : Int)), username := some "admin",
          iat := some 0, exp := some (0 + 24 * 3600),
          iss := some "user-service" } "k")
      = VerifyOutcome.valid
          { sub := some (toString (1 : Int)), username := some "admin",
            iat := some 0, exp := some (0 + 24 * 3600),
            iss := some "user-service" } :=
  login_token_roundtrip (fun _ h => h)
    [⟨1, "admin", "admin@example.com", "$2b$12$abcdefghijklmnopqrstuv",
      "2024-01-01"⟩] "k" 24 0 86399 "admin" "admin123"
    ⟨1, "admin", "admin@example.com", "$2b$12$abcdefghijklmnopqrstuv",
      "2024-01-01"⟩ (by decide) (by decide) rfl rfl (by decide)

/-- C3: a token whose signature verifies against the configured secret and
whose required claims (`exp`, `iat`, `sub`) are present, but whose `exp` is
not strictly after the current time, is rejected with the distinguished
`'Token has expired'` error; every other failure mode yields an
`'Invalid token: '`-prefixed error, so the expiry outcome is distinct. -/
theorem expired_distinguished (secret : String) (now : Int) (p : JwtPayload)
    (e i : Int) (s : String)
    (hexp : p.exp = some e) (hiat : p.iat = some i) (hsub : p.sub = some s)
    (hle : e ≤ now) :
    verify_jwt_token secret now (Token.signed p secret)
      = VerifyOutcome.invalid "Token has expired"
  ∧ (∀ m, ("Token has expired" : String) ≠ "Invalid token: " ++ m)
  ∧ ∀ t m, verify_jwt_token secret now t = VerifyOutcome.invalid m →
      m ≠ "Token has expired" → ∃ d, m = "Invalid token: " ++ d := by
  refine ⟨?_, ?_, ?_⟩
  · simp [verify_jwt_token, decode_jwt_token, hexp, hiat, hsub, hle]
  · intro m
    exact (string_append_ne _ m _ 0 (by decide) (by decide)).symm
  · intro t m hm hne
    rcases verify_error_shape secret now t m hm with h | h
    · exact absurd h hne
    · exact h

/-- Witness for C3: a token signed with the right secret, all required claims
present, `exp = 10 ≤ now = 10`, is rejected as expired. -/
theorem expired_distinguished_witness :
    verify_jwt_token "k" 10
      (Token.signed
        { sub := some "1", username := some "admin", iat := some 0,
          exp := some 10, iss := some "user-service" } "k")
      = VerifyOutcome.invalid "Token has expired" :=
  (expired_distinguished "k" 10
    { sub := some "1", username := some "admin", iat := some 0,
      exp := some 10, iss := some "user-service" }
    10 0 "1" rfl rfl rfl (by decide)).1

/-- C4 counterexample: a structurally malformed token and a well-formed token
signed with a different secret are both rejected, but with different error
messages — the caller can tell which check failed. -/
theorem malformed_and_badsig_differ :
    verify_jwt_token "k" 0 (Token.malformed "Not enough segments")
      = VerifyOutcome.invalid "Invalid token: Not enough segments"
  ∧ verify_jwt_token "k" 0
      (Token.signed
        { sub := some "1", username := some "u", iat := some 0,
          exp := some 100, iss := some "user-service" } "other")
      = VerifyOutcome.invalid "Invalid token: Signature verification failed"
  ∧ ("Invalid token: Not enough segments" : String)
      ≠ "Invalid token: Signature verification failed" :=
  ⟨rfl, rfl, by decide⟩

/-- C4 amended: both failure modes are rejected as invalid with messages
sharing the `'Invalid token: '` prefix, but the suffix is the underlying
exception detail (`str(e)`), so the two messages differ in general. -/
theorem invalid_token_error_details (secret : String) (now : Int) :
    (∀ m, verify_jwt_token secret now (Token.malformed m)
        = VerifyOutcome.invalid ("Invalid token: " ++ m))
  ∧ ∀ p s, s ≠ secret → verify_jwt_token secret now (Token.signed p s)
        = VerifyOutcome.invalid "Invalid token: Signature verification failed" := by
  constructor
  · intro m
    rfl
  · intro p s hs
    simp [verify_jwt_token, decode_jwt_token, hs]

/-- Witness for C4's amended theorem at a concrete payload and secrets. -/
theorem invalid_token_error_details_witness :
    verify_jwt_token "k" 0
      (Token.signed
        { sub := some "1", username := some "u", iat := some 0,
          exp := some 100, iss := some "user-service" } "other")
      = VerifyOutcome.invalid "Invalid token: Signature verification failed" :=
  (invalid_token_error_details "k" 0).2
    { sub := some "1", username := some "u", iat := some 0,
      exp := some 100, iss := some "user-service" }
    "other" (by decide)

/-- C5 counterexample: on a hash string that is not in bcrypt format,
`verify_password` does not return `False` — the `ValueError('Invalid salt')`
raised by `bcrypt.checkpw` propagates uncaught. -/
theorem verify_password_raises :
    verify_password (fun _ h => h) "x" "nothash" = Except.error "Invalid salt"
  ∧ verify_password (fun _ h => h) "x" "nothash" ≠ Except.ok false :=
  ⟨rfl, fun h => Except.noConfusion
    (show (Except.error "Invalid salt" : Except String Bool) = Except.ok false from h)⟩

/-- C5 amended: `verify_password` returns a boolean on every hash string in
bcrypt format; on a malformed or foreign-format hash string it raises
(`Invalid salt`) instead of returning `False`. -/
theorem verify_password_total_on_bcrypt (hashFn : String → String → String)
    (password hashed : String) :
    (isBcryptSalt hashed = true →
      ∃ b, verify_password hashFn password hashed = Except.ok b)
  ∧ (isBcryptSalt hashed = false →
      verify_password hashFn password hashed = Except.error "Invalid salt") := by
  constructor
  · intro h
    exact ⟨_, by unfold verify_password checkpw; rw [if_pos h]⟩
  · intro h
    unfold verify_password checkpw
    rw [if_neg (by rw [h]; exact Bool.false_ne_true)]

/-- Witness for C5's amended theorem: a well-formed bcrypt hash yields a
boolean, a malformed one yields the raised error. -/
theorem verify_password_total_on_bcrypt_witness :
    (∃ b, verify_password (fun _ h => h) "pw" "$2b$12$abcdefghijklmnopqrstuv"
        = Except.ok b)
  ∧ verify_password (fun _ h => h) "pw" "plaintext" = Except.error "Invalid salt" :=
  ⟨(verify_password_total_on_bcrypt (fun _ h => h) "pw"
      "$2b$12$abcdefghijklmnopqrstuv").1 (by decide),
   (verify_password_total_on_bcrypt (fun _ h => h) "pw" "plaintext").2 (by decide)⟩

/-- C6: every issued token has `iat` equal to the capture instant and `exp`
equal to `iat + configured lifetime` (`JWT_EXPIRATION_HOURS` hours, default
24); for any positive configured lifetime, `exp` is strictly greater than
`iat`. -/
theorem exp_iat_lifetime (secret : String) (hours now uid : Int) (uname : String)
    (hpos : 0 < hours) :
    ∃ p : JwtPayload,
      create_jwt_token secret hours now uid uname = Token.signed p secret
      ∧ p.iat = some now
      ∧ p.exp = some (now + Config.get_jwt_expiration hours)
      ∧ ∀ i e, p.iat = some i → p.exp = some e → i < e := by
  refine ⟨_, rfl, rfl, rfl, ?_⟩
  intro i e hi he
  injection hi with hi
  injection he with he
  subst hi
  subst he
  unfold Config.get_jwt_expiration
  omega

/-- Witness for C6 at the default 24-hour lifetime. -/
theorem exp_iat_lifetime_witness :
    ∃ p : JwtPayload,
      create_jwt_token "k" 24 1000 7 "admin" = Token.signed p "k"
      ∧ p.iat = some 1000
      ∧ p.exp = some (1000 + Config.get_jwt_expiration 24)
      ∧ ∀ i e, p.iat = some i → p.exp = some e → i < e :=
  exp_iat_lifetime "k" 24 1000 7 "admin" (by decide)

/-- C7: an unknown username and a known username with a non-matching password
produce the identical generic rejection `'Invalid credentials'` (same status,
same message), so the response does not reveal whether the username exists. -/
theorem login_generic_rejection (hashFn : String → String → String)
    (db : List User) (secret : String) (hours now : Int) (u p : String)
    (user : User) (hu : u ≠ "") (hp : p ≠ "") :
    (get_user_by_username db u = none →
      login hashFn db secret hours now (some [("username", u), ("password", p)])
        = LoginResult.unauthorized "Invalid credentials")
  ∧ (get_user_by_username db u = some user →
      verify_password hashFn p user.password_hash = Except.ok false →
      login hashFn db secret hours now (some [("username", u), ("password", p)])
        = LoginResult.unauthorized "Invalid credentials") := by
  have hkv : ([("username", u), ("password", p)] : List (String × String)) ≠ [] := by
    simp
  have hget_u : pyGet [("username", u), ("password", p)] "username" = some u := by
    simp [pyGet, List.find?]
  have hget_p : pyGet [("username", u), ("password", p)] "password" = some p := by
    simp [pyGet, List.find?]
  constructor
  · intro hfind
    simp [login, hget_u, hget_p, hu, hp, hfind]
  · intro hfind hpw
    simp [login, hget_u, hget_p, hu, hp, hfind, hpw]

/-- Witness for C7: concrete store with one user; a ghost username and a
wrong password for the stored user get the same rejection. -/
theorem login_generic_rejection_witness :
    login (fun pw _ => pw) [⟨1, "admin", "admin@example.com",
        "$2b$12$abcdefghijklmnopqrstuv", "2024-01-01"⟩] "k" 24 0
      (some [("username", "ghost"), ("password", "x")])
      = LoginResult.unauthorized "Invalid credentials"
  ∧ login (fun pw _ => pw) [⟨1, "admin", "admin@example.com",
        "$2b$12$abcdefghijklmnopqrstuv", "2024-01-01"⟩] "k" 24 0
      (some [("username", "admin"), ("password", "wrong")])
      = LoginResult.unauthorized "Invalid credentials" :=
  ⟨(login_generic_rejection (fun pw _ => pw)
      [⟨1, "admin", "admin@example.com", "$2b$12$abcdefghijklmnopqrstuv",
        "2024-01-01"⟩] "k" 24 0 "ghost" "x"
      ⟨1, "admin", "admin@example.com", "$2b$12$abcdefghijklmnopqrstuv",
        "2024-01-01"⟩ (by decide) (by decide)).1 (by decide),
   (login_generic_rejection (fun pw _ => pw)
      [⟨1, "admin", "admin@example.com", "$2b$12$abcdefghijklmnopqrstuv",
        "2024-01-01"⟩] "k" 24 0 "admin" "wrong"
      ⟨1, "admin", "admin@example.com", "$2b$12$abcdefghijklmnopqrstuv",
        "2024-01-01"⟩ (by decide) (by decide)).2 (by decide) rfl⟩

/-- C8 counterexample: a missing `JWT_SECRET_KEY` environment variable
silently falls back to the default `'dev-secret-change-in-production'`, and
an empty one is used as-is; no configuration fault is raised anywhere. -/
theorem secret_silent_default :
    Config.JWT_SECRET_KEY none = "dev-secret-change-in-production"
  ∧ Config.JWT_SECRET_KEY (some "") = "" :=
  ⟨rfl, rfl⟩

/-- C8 amended: the signing secret is read with a silent default — a missing
environment variable yields `'dev-secret-change-in-production'` and a set
value (even empty) is used unchanged; no startup validation exists.  The
Token Issuer itself is total: `create_jwt_token` always returns a token
signed with the configured secret. -/
theorem secret_fallback_and_issuer_total (env : Option String) (secret : String)
    (hours now uid : Int) (uname : String) :
    (env = none → Config.JWT_SECRET_KEY env = "dev-secret-change-in-production")
  ∧ (∀ s, env = some s → Config.JWT_SECRET_KEY env = s)
  ∧ ∃ p, create_jwt_token secret hours now uid uname = Token.signed p secret := by
  refine ⟨?_, ?_, _, rfl⟩
  · intro h
    rw [h]
    rfl
  · intro s h
    rw [h]
    rfl

/-- Witness for C8's amended theorem: the default on a missing variable, the
as-is value on a set one, and a token issued under the default secret. -/
theorem secret_fallback_and_issuer_total_witness :
    Config.JWT_SECRET_KEY none = "dev-secret-change-in-production"
  ∧ Config.JWT_SECRET_KEY (some "prod-secret") = "prod-secret"
  ∧ ∃ p, create_jwt_token "dev-secret-change-in-production" 24 0 1 "admin"
        = Token.signed p "dev-secret-change-in-production" :=
  ⟨(secret_fallback_and_issuer_total none "dev-secret-change-in-production"
      24 0 1 "admin").1 rfl,
   (secret_fallback_and_issuer_total (some "prod-secret") "k" 24 0 1 "admin").2.1
     "prod-secret" rfl,
   (secret_fallback_and_issuer_total none "dev-secret-change-in-production"
      24 0 1 "admin").2.2⟩

/-- C2: the Access Gate rejects with `'Authorization header required'`
exactly when the header is absent or empty; otherwise it rejects with the
format message exactly when splitting on whitespace does not yield exactly
two tokens with the first case-insensitively `'Bearer'`; otherwise it
delegates the second token to the verifier, granting access on success and
propagating the verifier's error on failure. -/
theorem access_gate_messages (parse : String → Token) (secret : String) (now : Int)
    (header : Option String) :
    (jwt_required_check parse secret now header
        = GateResult.reject "Authorization header required"
      ↔ header.getD "" = "")
  ∧ (jwt_required_check parse secret now header
        = GateResult.reject "Invalid authorization format. Use: Bearer <token>"
      ↔ header.getD "" ≠ ""
        ∧ ¬ ∃ s t, pySplit (header.getD "") = [s, t] ∧ pyLower s = "bearer")
  ∧ (∀ s t, pySplit (header.getD "") = [s, t] → pyLower s = "bearer" →
      jwt_required_check parse secret now header
        = match verify_jwt_token secret now (parse t) with
          | VerifyOutcome.valid p => GateResult.grant p
          | VerifyOutcome.invalid e => GateResult.reject e) := by
  by_cases hve : header.getD "" = ""
  · have hgate : jwt_required_check parse secret now header
        = GateResult.reject "Authorization header required" := by
      simp [jwt_required_check, hve]
    refine ⟨by simp [hgate, hve], by rw [hgate]; simp [hve], ?_⟩
    intro s t hsp
    rw [hve] at hsp
    simp [pySplit, pySplitAux] at hsp
  · rcases hsp : pySplit (header.getD "") with _ | ⟨s0, _ | ⟨t0, _ | ⟨r0, rest⟩⟩⟩
    · have hgate : jwt_required_check parse secret now header
          = GateResult.reject "Invalid authorization format. Use: Bearer <token>" := by
        simp [jwt_required_check, hve, hsp]
      refine ⟨by rw [hgate]; simp [hve], by rw [hgate]; simp [hve], ?_⟩
      intro s t hst
      simp at hst
    · have hgate : jwt_required_check parse secret now header
          = GateResult.reject "Invalid authorization format. Use: Bearer <token>" := by
        simp [jwt_required_check, hve, hsp]
      refine ⟨by rw [hgate]; simp [hve], by rw [hgate]; simp [hve], ?_⟩
      intro s t hst
      simp at hst
    · by_cases hb : pyLower s0 = "bearer"
      · have hgate : jwt_required_check parse secret now header
            = match verify_jwt_token secret now (parse t0) with
              | VerifyOutcome.valid p => GateResult.grant p
              | VerifyOutcome.invalid e => GateResult.reject e := by
          simp [jwt_required_check, hve, hsp, hb]
        have hne1 : jwt_required_check parse secret now header
            ≠ GateResult.reject "Authorization header required" := by
          rw [hgate]
          cases hov : verify_jwt_token secret now (parse t0) with
          | valid p => simp
          | invalid e =>
            simp only []
            intro hc
            rw [GateResult.reject.injEq] at hc
            rcases verify_error_shape secret now (parse t0) e hov with he | ⟨m, he⟩
            · rw [he] at hc
              exact absurd hc (by decide)
            · rw [he] at hc
              exact string_append_ne _ m _ 0 (by decide) (by decide) hc
        have hne2 : jwt_required_check parse secret now header
            ≠ GateResult.reject "Invalid authorization format. Use: Bearer <token>" := by
          rw [hgate]
          cases hov : verify_jwt_token secret now (parse t0) with
          | valid p => simp
          | invalid e =>
            simp only []
            intro hc
            rw [GateResult.reject.injEq] at hc
            rcases verify_error_shape secret now (parse t0) e hov with he | ⟨m, he⟩
            · rw [he] at hc
              exact absurd hc (by decide)
            · rw [he] at hc
              exact string_append_ne _ m _ 8 (by decide) (by decide) hc
        refine ⟨⟨fun hc => absurd hc hne1, fun hc => absurd hc hve⟩, ?_, ?_⟩
        · constructor
          · intro hc
            exact absurd hc hne2
          · rintro ⟨h1, h2⟩
            exact absurd ⟨s0, t0, rfl, hb⟩ h2
        · intro s t hst hbe
          injection hst with h1 h2
          injection h2 with h2 h3
          subst h1
          subst h2
          exact hgate
      · have hgate : jwt_required_check parse secret now header
            = GateResult.reject "Invalid authorization format. Use: Bearer <token>" := by
          simp [jwt_required_check, hve, hsp, hb]
        refine ⟨by rw [hgate]; simp [hve], by rw [hgate]; simp [hve, hb], ?_⟩
        intro s t hst hbe
        injection hst with h1 h2
        subst h1
        exact absurd hbe hb
    · have hgate : jwt_required_check parse secret now header
          = GateResult.reject "Invalid authorization format. Use: Bearer <token>" := by
        simp [jwt_required_check, hve, hsp]
      refine ⟨by rw [hgate]; simp [hve], by rw [hgate]; simp [hve], ?_⟩
      intro s t hst
      simp at hst

/-- Witness for C2: an absent header is rejected with the required-header
message, and a well-formed `Bearer` header delegates to the verifier. -/
theorem access_gate_messages_witness :
    jwt_required_check (fun s => Token.malformed s) "k" 0 none
      = GateResult.reject "Authorization header required"
  ∧ jwt_required_check (fun s => Token.malformed s) "k" 0 (some "Bearer abc")
      = match verify_jwt_token "k" 0 (Token.malformed "abc") with
        | VerifyOutcome.valid p => GateResult.grant p
        | VerifyOutcome.invalid e => GateResult.reject e :=
  ⟨(access_gate_messages (fun s => Token.malformed s) "k" 0 none).1.mpr rfl,
   (access_gate_messages (fun s => Token.malformed s) "k" 0 (some "Bearer abc")).2.2
     "Bearer" "abc" (by decide) (by decide)⟩

/-- C9: the `/verify` endpoint verifies the query-parameter token whenever a
non-empty one is supplied, ignoring the header entirely; with no query token
it consults the Authorization header only under the exact case-sensitive
prefix `"Bearer "` (stripping exactly 7 characters); and when the header does
not carry that prefix (in particular when it is absent, or uses `"bearer"` in
lower case) it answers the `'No token provided'` rejection without invoking
the verifier — the result does not depend on `parse`, the secret, or the
clock. -/
theorem verify_route_source_selection (parse : String → Token) (secret : String)
    (now : Int) :
    (∀ q hdr, q ≠ "" →
      verify_token_route parse secret now (some q) hdr
        = verify_token_respond secret now (parse q))
  ∧ (∀ ah, pyStartsWith ah "Bearer " = true → pyDrop ah 7 ≠ "" →
      verify_token_route parse secret now none (some ah)
        = verify_token_respond secret now (parse (pyDrop ah 7)))
  ∧ (∀ hdr, pyStartsWith (hdr.getD "") "Bearer " = false →
      verify_token_route parse secret now none hdr
        = VerifyRouteResult.badRequest
            "No token provided. Use ?token=<jwt> or Authorization header") := by
  refine ⟨?_, ?_, ?_⟩
  · intro q hdr hq
    simp [verify_token_route, hq]
  · intro ah hpre hdrop
    simp [verify_token_route, headerToken, hpre, hdrop]
  · intro hdr hpre
    simp [verify_token_route, headerToken, hpre]

/-- Witness for C9: a query token wins over a header; a `"Bearer "`-prefixed
header is consumed; a lower-case `"bearer "` header is not, yielding the
no-token rejection. -/
theorem verify_route_source_selection_witness :
    verify_token_route (fun s => Token.malformed s) "k" 0 (some "tok") (some "Bearer other")
      = verify_token_respond "k" 0 (Token.malformed "tok")
  ∧ verify_token_route (fun s => Token.malformed s) "k" 0 none (some "Bearer abc")
      = verify_token_respond "k" 0 (Token.malformed (pyDrop "Bearer abc" 7))
  ∧ verify_token_route (fun s => Token.malformed s) "k" 0 none (some "bearer abc")
      = VerifyRouteResult.badRequest
          "No token provided. Use ?token=<jwt> or Authorization header" :=
  ⟨(verify_route_source_selection (fun s => Token.malformed s) "k" 0).1
     "tok" (some "Bearer other") (by decide),
   (verify_route_source_selection (fun s => Token.malformed s) "k" 0).2.1
     "Bearer abc" (by decide) (by decide),
   (verify_route_source_selection (fun s => Token.malformed s) "k" 0).2.2
     (some "bearer abc") (by decide)⟩

/-- C10: a missing body, an empty body, or an absent/empty username or
password field is rejected with `'Request body required'` or
`'Username and password required'`, and on that path the result is
independent of the credential store and the password hasher — no store
lookup or hash verification influences it. -/
theorem login_rejects_before_store (hashFn : String → String → String)
    (db : List User) (secret : String) (hours now : Int)
    (data : Option (List (String × String)))
    (h : data = none ∨ data = some [] ∨
         ∃ kvs, data = some kvs ∧
           ((pyGet kvs "username").getD "" = "" ∨ (pyGet kvs "password").getD "" = "")) :
    (login hashFn db secret hours now data = LoginResult.badRequest "Request body required"
      ∨ login hashFn db secret hours now data
          = LoginResult.badRequest "Username and password required")
  ∧ ∀ (hashFn2 : String → String → String) (db2 : List User),
      login hashFn2 db2 secret hours now data = login hashFn db secret hours now data := by
  rcases h with h | h | ⟨kvs, hk, hcred⟩
  · subst h
    exact ⟨Or.inl rfl, fun _ _ => rfl⟩
  · subst h
    exact ⟨Or.inl rfl, fun _ _ => rfl⟩
  · subst hk
    by_cases hnil : kvs = []
    · subst hnil
      exact ⟨Or.inl rfl, fun _ _ => rfl⟩
    · rcases hcred with hg | hg
      · exact ⟨Or.inr (by simp [login, hnil, hg]), fun _ _ => by simp [login, hnil, hg]⟩
      · exact ⟨Or.inr (by simp [login, hnil, hg]), fun _ _ => by simp [login, hnil, hg]⟩

/-- Witness for C10: a body carrying only a username is rejected before any
store access, with the same result under a different store and hasher. -/
theorem login_rejects_before_store_witness :
    (login (fun _ h => h) [] "k" 24 0 (some [("username", "admin")])
        = LoginResult.badRequest "Request body required"
      ∨ login (fun _ h => h) [] "k" 24 0 (some [("username", "admin")])
        = LoginResult.badRequest "Username and password required")
  ∧ login (fun p _ => p)
        [⟨1, "admin", "admin@example.com", "$2b$12$abcdefghijklmnopqrstuv",
          "2024-01-01"⟩] "k" 24 0 (some [("username", "admin")])
      = login (fun _ h => h) [] "k" 24 0 (some [("username", "admin")]) :=
  ⟨(login_rejects_before_store (fun _ h => h) [] "k" 24 0
      (some [("username", "admin")])
      (Or.inr (Or.inr ⟨[("username", "admin")], rfl, Or.inr rfl⟩))).1,
   (login_rejects_before_store (fun _ h => h) [] "k" 24 0
      (some [("username", "admin")])
      (Or.inr (Or.inr ⟨[("username", "admin")], rfl, Or.inr rfl⟩))).2
     (fun p _ => p)
     [⟨1, "admin", "admin@example.com", "$2b$12$abcdefghijklmnopqrstuv",
       "2024-01-01"⟩]⟩

end KongJwt
